import Mathlib

/-!
Verification development for the FlowVision transport-document OCR system.

The Lean definitions below are a shallow embedding of the Python sources:

* `TextPostprocessor`  — services/ocr-service/src/ocr/postprocess.py
* `TextDetector`       — services/ocr-service/src/ocr/text_detection.py
* `LayoutLMExtractor`  — services/ocr-service/src/ocr/layoutlm_extractor.py
* `OCRPipeline`        — services/ocr-service/src/ocr/pipeline.py
* `WaybillProcessor`   — src/processors/waybill.py
* API routes           — services/ocr-service/src/api/routes.py
* Celery workers       — services/ocr-service/src/workers/celery_tasks.py and
                         src/workers/table_extractor.py
* shared utilities     — transport_ocr_system/shared/utils.py

Python `re.sub` calls are embedded as explicit left-to-right, non-overlapping
scanners over `List Char`; each scanner takes a fuel argument initialised to
the length of the input (every step consumes at least one character, so that
fuel is always sufficient), which keeps every definition kernel-computable.
Strings are `String`, floats are `ℚ`, Python `None`-able values are `Option`,
raised exceptions are `Except String`.
-/

/-- Python `\w` for the character classes used by postprocess.py: ASCII
alphanumerics, underscore and the Cyrillic letters of the documents. -/
def isWordChar (c : Char) : Bool :=
  c.isAlphanum || c == '_' ||
    (0x410 ≤ c.toNat && c.toNat ≤ 0x44F) || c == 'ё' || c == 'Ё'

/-- Python `\s`: the ASCII whitespace characters. -/
def isSpaceChar (c : Char) : Bool :=
  c == ' ' || c == '\t' || c == '\n' || c == '\x0d' || c == '\x0b' || c == '\x0c'

/-- The punctuation class `[.,;:!?]` of `_fix_spacing`. -/
def isPunctChar (c : Char) : Bool :=
  c == '.' || c == ',' || c == ';' || c == ':' || c == '!' || c == '?'

/-- The letter class `[А-Яа-яA-Za-z]` of `_fix_spacing` (note: contiguous
Cyrillic range U+0410–U+044F, which excludes `ё`). -/
def isRule2Letter (c : Char) : Bool :=
  (0x41 ≤ c.toNat && c.toNat ≤ 0x5A) || (0x61 ≤ c.toNat && c.toNat ≤ 0x7A) ||
    (0x410 ≤ c.toNat && c.toNat ≤ 0x44F)

/-- Python `str.lower` on the alphabets appearing in the sources. -/
def lowerChar (c : Char) : Char :=
  if 0x41 ≤ c.toNat && c.toNat ≤ 0x5A then Char.ofNat (c.toNat + 32)
  else if 0x410 ≤ c.toNat && c.toNat ≤ 0x42F then Char.ofNat (c.toNat + 32)
  else if c == 'Ё' then 'ё'
  else c

/-- Python `str.strip()`: drop leading and trailing whitespace. -/
def stripChars (l : List Char) : List Char :=
  ((l.dropWhile isSpaceChar).reverse.dropWhile isSpaceChar).reverse

namespace TextPostprocessor

/-- Scanner for `re.sub(r'(\w+)-\s+(\w+)', r'\1\2', text)`
(postprocess.py `_fix_hyphenation`): a word run, a hyphen, whitespace and a
second word run are replaced by the two word runs joined; scanning resumes
after the match, one character at a time otherwise. -/
def fixHyphAux : Nat → List Char → List Char
  | 0, l => l
  | _ + 1, [] => []
  | fuel + 1, c :: rest =>
    if isWordChar c then
      match List.dropWhile isWordChar (c :: rest) with
      | d :: t2 =>
        if d = '-' ∧ (List.takeWhile isSpaceChar t2).isEmpty = false ∧
            (List.takeWhile isWordChar (List.dropWhile isSpaceChar t2)).isEmpty = false then
          List.takeWhile isWordChar (c :: rest) ++
            List.takeWhile isWordChar (List.dropWhile isSpaceChar t2) ++
              fixHyphAux fuel (List.dropWhile isWordChar (List.dropWhile isSpaceChar t2))
        else c :: fixHyphAux fuel rest
      | [] => c :: fixHyphAux fuel rest
    else c :: fixHyphAux fuel rest

/-- `_fix_hyphenation` of postprocess.py. -/
def fix_hyphenation (s : String) : String :=
  String.mk (fixHyphAux s.data.length s.data)

/-- Scanner for `re.sub(r'\s+([.,;:!?])', r'\1', text)`: a whitespace run
directly before punctuation is dropped. -/
def spacingRule1Aux : Nat → List Char → List Char
  | 0, l => l
  | _ + 1, [] => []
  | fuel + 1, c :: rest =>
    if isSpaceChar c then
      match List.dropWhile isSpaceChar (c :: rest) with
      | p :: t2 =>
        if isPunctChar p then p :: spacingRule1Aux fuel t2
        else c :: spacingRule1Aux fuel rest
      | [] => c :: spacingRule1Aux fuel rest
    else c :: spacingRule1Aux fuel rest

/-- Scanner for `re.sub(r'([.,;:!?])([А-Яа-яA-Za-z])', r'\1 \2', text)`:
insert a space between punctuation and a directly following letter. -/
def spacingRule2Aux : Nat → List Char → List Char
  | 0, l => l
  | _ + 1, [] => []
  | _ + 1, [c] => [c]
  | fuel + 1, c :: d :: rest =>
    if isPunctChar c && isRule2Letter d then
      c :: ' ' :: d :: spacingRule2Aux fuel rest
    else c :: spacingRule2Aux fuel (d :: rest)

/-- Scanner for `re.sub(r' {2,}', ' ', text)`: a run of two or more plain
spaces collapses to one. -/
def spacingRule3Aux : Nat → List Char → List Char
  | 0, l => l
  | _ + 1, [] => []
  | _ + 1, [c] => [c]
  | fuel + 1, c :: d :: rest =>
    if c == ' ' && d == ' ' then
      ' ' :: spacingRule3Aux fuel (List.dropWhile (fun x => x == ' ') rest)
    else c :: spacingRule3Aux fuel (d :: rest)

/-- `_fix_spacing` of postprocess.py: the three substitutions in source order,
then `str.strip()`. -/
def fix_spacing (s : String) : String :=
  let l1 := spacingRule1Aux s.data.length s.data
  let l2 := spacingRule2Aux l1.length l1
  let l3 := spacingRule3Aux l2.length l2
  String.mk (stripChars l3)

/-- Scanner for `re.sub(r'\s+', ' ', text)` in `_normalize_whitespace`. -/
def wsAux : Nat → List Char → List Char
  | 0, l => l
  | _ + 1, [] => []
  | fuel + 1, c :: rest =>
    if isSpaceChar c then ' ' :: wsAux fuel (List.dropWhile isSpaceChar rest)
    else c :: wsAux fuel rest

/-- `_normalize_whitespace` of postprocess.py. -/
def normalize_whitespace (s : String) : String :=
  String.mk (stripChars (wsAux s.data.length s.data))

/-- One attempted match of `(\d{4})-(\d{2})-(\d{2})` at the head of the list;
on success returns the replacement `\3.\2.\1` and the tail after the match. -/
def tryYMD : List Char → Option (List Char × List Char)
  | a1 :: a2 :: a3 :: a4 :: s1 :: b1 :: b2 :: s2 :: c1 :: c2 :: tail =>
    if a1.isDigit && a2.isDigit && a3.isDigit && a4.isDigit && s1 == '-' &&
        b1.isDigit && b2.isDigit && s2 == '-' && c1.isDigit && c2.isDigit then
      some ([c1, c2, '.', b1, b2, '.', a1, a2, a3, a4], tail)
    else none
  | _ => none

/-- One attempted match of `(\d{2})/(\d{2})/(\d{4})` at the head of the list;
on success returns the replacement `\1.\2.\3` and the tail after the match. -/
def tryDMY : List Char → Option (List Char × List Char)
  | a1 :: a2 :: s1 :: b1 :: b2 :: s2 :: c1 :: c2 :: c3 :: c4 :: tail =>
    if a1.isDigit && a2.isDigit && s1 == '/' && b1.isDigit && b2.isDigit &&
        s2 == '/' && c1.isDigit && c2.isDigit && c3.isDigit && c4.isDigit then
      some ([a1, a2, '.', b1, b2, '.', c1, c2, c3, c4], tail)
    else none
  | _ => none

/-- Scanner for the first substitution of `_format_date`. -/
def sub1Aux : Nat → List Char → List Char
  | 0, l => l
  | fuel + 1, l =>
    match tryYMD l with
    | some (rep, tail) => rep ++ sub1Aux fuel tail
    | none =>
      match l with
      | [] => []
      | c :: rest => c :: sub1Aux fuel rest

/-- Scanner for the second substitution of `_format_date`. -/
def sub2Aux : Nat → List Char → List Char
  | 0, l => l
  | fuel + 1, l =>
    match tryDMY l with
    | some (rep, tail) => rep ++ sub2Aux fuel tail
    | none =>
      match l with
      | [] => []
      | c :: rest => c :: sub2Aux fuel rest

/-- `_format_date` of postprocess.py: only the two source forms
`YYYY-MM-DD` and `DD/MM/YYYY` are rewritten, to `DD.MM.YYYY`. -/
def format_date (s : String) : String :=
  let l1 := sub1Aux s.data.length s.data
  String.mk (sub2Aux l1.length l1)

/-- `_format_inn` of postprocess.py, including the source's overlapping
slices `digits[4:]` / `digits[6:]`. -/
def format_inn (v : String) : String :=
  let ds := v.data.filter Char.isDigit
  if ds.length == 10 then
    String.mk (ds.take 4 ++ [' '] ++ ds.drop 4 ++ [' '] ++ ds.drop 6)
  else if ds.length == 12 then
    String.mk (ds.take 4 ++ [' '] ++ ds.drop 4 ++ [' '] ++
      ((ds.drop 6).take 4) ++ [' '] ++ ds.drop 10)
  else v

/-- `_format_phone` of postprocess.py. -/
def format_phone (v : String) : String :=
  let ds0 := v.data.filter Char.isDigit
  let ds := if ds0.length == 11 && ds0.head? == some '7' then ds0.drop 1 else ds0
  if ds.length == 10 then
    String.mk (('+' :: '7' :: ' ' :: '(' :: ds.take 3) ++ (')' :: ' ' :: (ds.drop 3).take 3) ++
      ('-' :: (ds.drop 6).take 2) ++ ('-' :: ds.drop 8))
  else v

/-- `_format_email` of postprocess.py: `value.lower().strip()`. -/
def format_email (v : String) : String :=
  String.mk (stripChars (v.data.map lowerChar))

/-- Decimal digit list (most significant first) of a natural number,
mirroring Python `str(int(value))` (leading zeros vanish). -/
def natDigitsAux : Nat → Nat → List Char
  | 0, _ => []
  | fuel + 1, n =>
    if n < 10 then [Char.ofNat (48 + n)]
    else natDigitsAux fuel (n / 10) ++ [Char.ofNat (48 + n % 10)]

/-- Insert the thousands separators of `'{:,}'.format` (a space after the
`replace`), walking the reversed digit list. -/
def groupRevAux : List Char → Nat → List Char
  | [], _ => []
  | c :: rest, k =>
    if k != 0 && k % 3 == 0 then ' ' :: c :: groupRevAux rest (k + 1)
    else c :: groupRevAux rest (k + 1)

/-- Value of a digit list as a natural number (Python `int`). -/
def digitsToNat (l : List Char) : Nat :=
  l.foldl (fun n c => 10 * n + (c.toNat - 48)) 0

/-- `_format_number` of postprocess.py: strip plain spaces; if the remainder
is all digits, regroup it in thousands separated by spaces, else return the
space-stripped value. -/
def format_number (v : String) : String :=
  let l := v.data.filter (fun c => c != ' ')
  if l.length != 0 && l.all Char.isDigit then
    String.mk ((groupRevAux (natDigitsAux (digitsToNat l + 1) (digitsToNat l)).reverse 0).reverse)
  else String.mk l

/-- Case-insensitive match of a fixed abbreviation at the head of the list
(used by `_format_address`'s `\b<abbrev>\.\s*` patterns): letters of the
abbreviation, a literal dot, then greedy `\s*`; returns the tail. -/
def matchAbbrevDot : List Char → List Char → Option (List Char)
  | [], '.' :: rest => some (List.dropWhile isSpaceChar rest)
  | [], _ => none
  | p :: ps, c :: rest => if lowerChar c == p then matchAbbrevDot ps rest else none
  | _ :: _, [] => none

/-- Scanner for `re.sub(r'\b<abbrev>\.\s*', '<abbrev>. ', value, flags=IGNORECASE)`:
`prevWord` tracks whether the previous character was a word character
(the `\b` boundary). -/
def subAbbrevAux (pat : List Char) : Nat → Bool → List Char → List Char
  | 0, _, l => l
  | _ + 1, _, [] => []
  | fuel + 1, prevWord, c :: rest =>
    if prevWord then c :: subAbbrevAux pat fuel (isWordChar c) rest
    else
      match matchAbbrevDot pat (c :: rest) with
      | some tail => pat ++ ('.' :: ' ' :: subAbbrevAux pat fuel false tail)
      | none => c :: subAbbrevAux pat fuel (isWordChar c) rest

/-- Scanner for `re.sub(r'\bр-н\b', 'р-н', value, flags=IGNORECASE)`:
case-insensitive match of `р-н` between word boundaries, replaced by the
lowercase literal. -/
def subRNAux : Nat → Bool → List Char → List Char
  | 0, _, l => l
  | _ + 1, _, [] => []
  | fuel + 1, prevWord, c :: rest =>
    if prevWord then c :: subRNAux fuel (isWordChar c) rest
    else
      match rest with
      | d :: e :: tail =>
        if lowerChar c == 'р' && d == '-' && lowerChar e == 'н' &&
            (tail.head?.map isWordChar).getD false == false then
          'р' :: '-' :: 'н' :: subRNAux fuel false tail
        else c :: subRNAux fuel (isWordChar c) rest
      | _ => c :: subRNAux fuel (isWordChar c) rest

/-- One dotted-abbreviation substitution over a whole string. -/
def subAbbrev (pat : String) (l : List Char) : List Char :=
  subAbbrevAux pat.data l.length false l

/-- `_format_address` of postprocess.py: the seven substitutions in the
source's dictionary order. -/
def format_address (v : String) : String :=
  let l1 := subAbbrev ("г") v.data
  let l2 := subAbbrev ("обл") l1
  let l3 := subRNAux l2.length false l2
  let l4 := subAbbrev ("ул") l3
  let l5 := subAbbrev ("д") l4
  let l6 := subAbbrev ("корп") l5
  String.mk (subAbbrev ("стр") l6)

/-- `_format_by_type` of postprocess.py: dispatch on the field type; unknown
types pass through unformatted. -/
def format_by_type (value : String) (field_type : String) : String :=
  if field_type == "date" then format_date value
  else if field_type == "inn" then format_inn value
  else if field_type == "phone" then format_phone value
  else if field_type == "email" then format_email value
  else if field_type == "number" then format_number value
  else if field_type == "address" then format_address value
  else value

end TextPostprocessor


/-- A field dictionary as produced by the extractors and consumed by the
postprocessor (`name`, `value`, `type`, `confidence` keys; `Option` models
an absent key or a non-string value). -/
structure PyField where
  name : String
  value : Option String
  type_ : Option String
  confidence : Option ℚ
deriving DecidableEq, Repr

namespace TextPostprocessor

/-- The three constructor flags of `TextPostprocessor` (all default `True`). -/
structure Config where
  fix_spacing : Bool
  fix_hyphenation : Bool
  normalize_whitespace : Bool
deriving DecidableEq, Repr

/-- The default-constructed postprocessor, as built by `OCRPipeline.__init__`. -/
def defaultConfig : Config := { fix_spacing := true, fix_hyphenation := true, normalize_whitespace := true }

/-- `_process_field` of postprocess.py: hyphenation repair, spacing repair,
whitespace normalisation (each behind its flag), then type-specific
formatting with `field.get("type", "text")`. Fields without a string value
are returned unchanged. -/
def process_field (cfg : Config) (field : PyField) : PyField :=
  match field.value with
  | none => field
  | some v0 =>
    let v1 := if cfg.fix_hyphenation then fix_hyphenation v0 else v0
    let v2 := if cfg.fix_spacing then fix_spacing v1 else v1
    let v3 := if cfg.normalize_whitespace then normalize_whitespace v2 else v2
    let v4 := format_by_type v3 ((field.type_).getD ("text"))
    { field with value := some v4 }

/-- A recognised text span as produced by `TextDetector.recognize` (only the
keys the downstream stages read). -/
structure RecText where
  text : String
  confidence : ℚ
deriving DecidableEq, Repr

/-- `TextPostprocessor.process`: every extracted field is passed through
`_process_field`; the recognised texts are also cleaned (`_process_text`) but
that list is discarded — only the processed fields are returned. -/
def process (cfg : Config) (extracted_fields : List PyField) (_recognized_texts : List RecText) : List PyField :=
  extracted_fields.map (process_field cfg)

end TextPostprocessor

/-! ## shared/utils.py -/

namespace SharedUtils

/-- The names defined by transport_ocr_system/shared/utils.py (the module
`shared.utils` imported by `LayoutLMExtractor._extract_by_rules`). -/
def exports : List String :=
  [("generate_document_id"), ("calculate_file_hash"), ("sanitize_filename"),
   ("parse_date_from_text"), ("extract_inn"), ("extract_vin"),
   ("extract_license_plate"), ("get_confidence_level"), ("format_confidence"),
   ("merge_dict_values"), ("validate_required_fields"), ("truncate_text")]

/-- A 2-2-4 digit date shape (`\d{2}<sep>\d{2}<sep>\d{4}`) at the head of the
list, as searched by `parse_date_from_text`. -/
def shape224At (sep : Char) : List Char → Bool
  | a1 :: a2 :: s1 :: b1 :: b2 :: s2 :: c1 :: c2 :: c3 :: c4 :: _ =>
    a1.isDigit && a2.isDigit && s1 == sep && b1.isDigit && b2.isDigit &&
      s2 == sep && c1.isDigit && c2.isDigit && c3.isDigit && c4.isDigit
  | _ => false

/-- A 4-2-2 digit date shape (`\d{4}-\d{2}-\d{2}`) at the head of the list. -/
def shape422At (sep : Char) : List Char → Bool
  | a1 :: a2 :: a3 :: a4 :: s1 :: b1 :: b2 :: s2 :: c1 :: c2 :: _ =>
    a1.isDigit && a2.isDigit && a3.isDigit && a4.isDigit && s1 == sep &&
      b1.isDigit && b2.isDigit && s2 == sep && c1.isDigit && c2.isDigit
  | _ => false

/-- `re.search` for a date shape anywhere in the list. -/
def searchShape (at_ : List Char → Bool) : Nat → List Char → Bool
  | 0, _ => false
  | _ + 1, [] => false
  | fuel + 1, c :: rest => at_ (c :: rest) || searchShape at_ fuel rest

/-- The pattern-search half of `parse_date_from_text` (utils.py lines 36-44):
true when one of the four date regexes `\d{2}\.\d{2}\.\d{4}`,
`\d{2}/\d{2}/\d{4}`, `\d{4}-\d{2}-\d{2}`, `\d{2}-\d{2}-\d{4}` matches
somewhere in the text — "a date pattern was found in the source text". -/
def datePatternFound (text : String) : Bool :=
  searchShape (shape224At '.') text.data.length text.data ||
    searchShape (shape224At '/') text.data.length text.data ||
    searchShape (shape422At '-') text.data.length text.data ||
    searchShape (shape224At '-') text.data.length text.data

end SharedUtils

/-! ## text_detection.py -/

namespace TextDetector

/-- One corner-point box plus text payload as returned by the external
PaddleOCR collaborator (`line[0]` four points, `line[1]` text/conf/angle). -/
structure RawLine where
  p1 : ℚ × ℚ
  p2 : ℚ × ℚ
  p3 : ℚ × ℚ
  p4 : ℚ × ℚ
  text : String
  confidence : ℚ
  angle : Option ℚ
deriving DecidableEq, Repr

/-- `_box_to_dict` output. -/
structure BoxDict where
  x_min : ℚ
  y_min : ℚ
  x_max : ℚ
  y_max : ℚ
  width : ℚ
  height : ℚ
deriving DecidableEq, Repr

/-- A text region as returned by `TextDetector.detect`. -/
structure Region where
  text : String
  confidence : ℚ
  bbox : BoxDict
  angle : ℚ
deriving DecidableEq, Repr

/-- `_box_to_dict` of text_detection.py: min/max of the four corner points. -/
def box_to_dict (l : RawLine) : BoxDict :=
  let xs := [l.p1.1, l.p2.1, l.p3.1, l.p4.1]
  let ys := [l.p1.2, l.p2.2, l.p3.2, l.p4.2]
  let xmin := xs.foldl min l.p1.1
  let xmax := xs.foldl max l.p1.1
  let ymin := ys.foldl min l.p1.2
  let ymax := ys.foldl max l.p1.2
  { x_min := xmin, y_min := ymin, x_max := xmax, y_max := ymax,
    width := xmax - xmin, height := ymax - ymin }

/-- Outcome of the external `self.ocr.ocr(image, cls=True)` call: either a
raised exception or a list of pages, each a list of lines (`None` results are
modelled by the empty list, which Python treats identically here: both are
falsy). -/
def OcrOutcome := Except String (List (List RawLine))

/-- `TextDetector.detect` (text_detection.py lines 60-96): translate the
collaborator's lines into regions; on a raised exception or an empty result
return the empty list instead of propagating. -/
def detect (outcome : OcrOutcome) : List Region :=
  match outcome with
  | .error _ => []
  | .ok pages =>
    match pages with
    | [] => []
    | firstPage :: _ =>
      if firstPage.isEmpty then []
      else firstPage.map (fun line =>
        { text := line.text, confidence := line.confidence,
          bbox := box_to_dict line, angle := line.angle.getD 0 })

end TextDetector

/-! ## layoutlm_extractor.py -/

namespace LayoutLMExtractor

/-- `_extract_by_rules` (layoutlm_extractor.py lines 172-240). Its first
statement is `from shared.utils import extract_date_from_text, extract_inn,
extract_vin, extract_license_plate`; `shared.utils` defines
`parse_date_from_text` but no `extract_date_from_text`, so the import raises
`ImportError` on every call and the rest of the body (date/INN/VIN/plate
rule matching) is unreachable. -/
def extract_by_rules (_recognized_texts : List TextPostprocessor.RecText) :
    Except String (List PyField) :=
  if [("extract_date_from_text"), ("extract_inn"), ("extract_vin"),
      ("extract_license_plate")].all (fun n => SharedUtils.exports.contains n) then
    .ok []  -- unreachable: the import list is not a subset of the exports
  else
    .error ("ImportError: cannot import name extract_date_from_text from shared.utils")

/-- `LayoutLMExtractor.extract` (lines 64-92): empty input short-circuits to
`[]`; without a loaded model the rule-based path is used; otherwise the model
path runs and a raised model exception falls back to the rule-based path.
The model inference `_extract_with_model` is an external collaborator here,
represented by its outcome. -/
def extract (modelAvailable : Bool) (modelOutcome : Except String (List PyField))
    (recognized_texts : List TextPostprocessor.RecText) : Except String (List PyField) :=
  if recognized_texts.isEmpty then .ok []
  else if !modelAvailable then extract_by_rules recognized_texts
  else
    match modelOutcome with
    | .ok fields => .ok fields
    | .error _ => extract_by_rules recognized_texts

end LayoutLMExtractor

/-! ## pipeline.py -/

namespace OCRPipeline

/-- The result dictionary of `OCRPipeline.process`. The completed branch
carries `status`, `fields`, `raw_text`, `processing_time`; the failed branch
carries `status`, `error`, `processing_time`. Neither branch ever writes a
`confidence` key, so `confidence` is `none` on every path. -/
structure PipelineResult where
  status : String
  fields : Option (List PyField)
  raw_text : Option String
  confidence : Option ℚ
  error : Option String
  processing_time : ℚ
deriving DecidableEq, Repr

/-- The per-invocation outcomes of the fallible stages and collaborators of
one `OCRPipeline.process` call: image preprocessing (decode may raise), the
external OCR call inside `detect`, the recognition step (no internal
try/except: its exceptions reach the pipeline), and the LayoutLM model. -/
structure Env where
  preprocessOutcome : Except String Unit
  detectOutcome : TextDetector.OcrOutcome
  recognizeOutcome : Except String (List TextPostprocessor.RecText)
  modelAvailable : Bool
  modelOutcome : Except String (List PyField)
  elapsed : ℚ

/-- The failed-branch dictionary (pipeline.py lines 127-131). -/
def failedResult (e : String) (t : ℚ) : PipelineResult :=
  { status := "failed", fields := none, raw_text := none,
    confidence := none, error := some e, processing_time := t }

/-- `OCRPipeline.process` (pipeline.py lines 61-131): the five stages run in
order inside one `try`; any raised exception yields the failed dictionary;
otherwise the completed dictionary is built from the postprocessed fields
and the newline-joined recognised texts. -/
def process (env : Env) : PipelineResult :=
  match env.preprocessOutcome with
  | .error e => failedResult e env.elapsed
  | .ok _ =>
    let _text_regions := TextDetector.detect env.detectOutcome
    match env.recognizeOutcome with
    | .error e => failedResult e env.elapsed
    | .ok recognized_texts =>
      match LayoutLMExtractor.extract env.modelAvailable env.modelOutcome recognized_texts with
      | .error e => failedResult e env.elapsed
      | .ok extracted_fields =>
        let final_fields :=
          TextPostprocessor.process TextPostprocessor.defaultConfig extracted_fields recognized_texts
        { status := "completed", fields := some final_fields,
          raw_text := some (String.intercalate ("\n") (recognized_texts.map (·.text))),
          confidence := none, error := none, processing_time := env.elapsed }

end OCRPipeline

/-! ## processors/waybill.py -/

namespace WaybillProcessor

/-- One extracted waybill field dictionary (`value`, `confidence`,
`raw_text`), as returned by the `_extract_*` helpers. -/
structure WField where
  value : Option String
  confidence : Option ℚ
  raw_text : Option String
deriving DecidableEq, Repr

/-- `_calculate_confidence` (waybill.py lines 225-230): the arithmetic mean
of `field.get("confidence", 0.0)` over the extracted fields; `0.0` for an
empty collection. -/
def calculate_confidence (extracted_data : List WField) : ℚ :=
  let confidences := extracted_data.map (fun f => f.confidence.getD 0)
  if confidences.isEmpty then 0
  else confidences.sum / (confidences.length : ℚ)

end WaybillProcessor

/-! ## api/routes.py -/

namespace ApiRoutes

/-- The `TaskStatus` record stored in `tasks_storage` (routes.py lines
28-35). Timestamps are abstract rationals. -/
structure TaskStatus where
  task_id : String
  status : String
  result : Option OCRPipeline.PipelineResult
  error_message : Option String
  created_at : ℚ
  completed_at : Option ℚ
deriving DecidableEq, Repr

/-- The module-level `tasks_storage` dictionary, as an association list. -/
def TaskStorage := List (String × TaskStatus)

/-- `tasks_storage.get(task_id)`. -/
def lookupTask (st : TaskStorage) (tid : String) : Option TaskStatus :=
  match st with
  | [] => none
  | (k, v) :: rest => if k = tid then some v else lookupTask rest tid

/-- `tasks_storage[task_id] = task`. -/
def setTask (st : TaskStorage) (tid : String) (t : TaskStatus) : TaskStorage :=
  match st with
  | [] => [(tid, t)]
  | (k, v) :: rest => if k = tid then (tid, t) :: rest else (k, v) :: setTask rest tid t

/-- The request body of `POST /ocr/tasks`. -/
structure OCRTaskRequest where
  file_url : String
  document_type : Option String
deriving DecidableEq, Repr

/-- The response of `POST /ocr/tasks`. -/
structure OCRTaskResponse where
  task_id : String
  status : String
  message : String
deriving DecidableEq, Repr

/-- What one `create_ocr_task` call produces: its HTTP response, the updated
storage, and the pipeline invocations it enqueued via
`process_document.delay(task_id, file_url, document_type)`. -/
structure SubmitOut where
  response : OCRTaskResponse
  storage : TaskStorage
  enqueued : List (String × String × Option String)

/-- `create_ocr_task` (routes.py lines 38-78). `genId` is the value of
`str(uuid.uuid4())` and `now` the value of `datetime.utcnow()`, both external
inputs. The handler unconditionally stores a fresh pending task under
`genId` (overwriting any record already there) and enqueues one background
pipeline invocation; no duplicate check occurs and no exception is raised. -/
def create_ocr_task (genId : String) (now : ℚ) (request : OCRTaskRequest)
    (st : TaskStorage) : SubmitOut :=
  let task : TaskStatus :=
    { task_id := genId, status := "pending", result := none,
      error_message := none, created_at := now, completed_at := none }
  { response := { task_id := genId, status := "pending",
                  message := "Task created and queued for processing" },
    storage := setTask st genId task,
    enqueued := [(genId, request.file_url, request.document_type)] }

/-- The errors `cancel_task` can raise, as `HTTPException(status_code, detail)`. -/
structure HTTPException where
  status_code : Nat
  detail : String
deriving DecidableEq, Repr

/-- `cancel_task` (routes.py lines 110-140): 404 when the task is unknown;
400 (the spec's `InvalidStateError`) when its status is `completed` or
`failed`, leaving the storage untouched; otherwise the status becomes
`cancelled`. -/
def cancel_task (tid : String) (st : TaskStorage) :
    Except HTTPException String × TaskStorage :=
  match lookupTask st tid with
  | none =>
    (.error { status_code := 404, detail := "Task " ++ tid ++ " not found" }, st)
  | some task =>
    if task.status = "completed" ∨ task.status = "failed" then
      (.error { status_code := 400,
                detail := "Cannot cancel task with status " ++ task.status }, st)
    else
      (.ok ("Task cancelled"), setTask st tid { task with status := "cancelled" })

end ApiRoutes

/-! ## workers/celery_tasks.py -/

namespace CeleryTasks

/-- `update_task_status` (celery_tasks.py lines 172-198): when the task
exists, set its status and completion time; `result` and `error_message`
are only overwritten when truthy. -/
def update_task_status (st : ApiRoutes.TaskStorage) (tid : String) (status : String)
    (result : Option OCRPipeline.PipelineResult) (error_message : Option String)
    (now : ℚ) : ApiRoutes.TaskStorage :=
  match ApiRoutes.lookupTask st tid with
  | none => st
  | some task =>
    ApiRoutes.setTask st tid
      { task with
        status := status,
        completed_at := some now,
        result := match result with | some r => some r | none => task.result,
        error_message := match error_message with | some e => some e | none => task.error_message }

/-- The external inputs of one `process_document` execution: the MinIO
download outcome and the pipeline stage outcomes (the pipeline itself never
raises — see `OCRPipeline.process`). -/
structure Env where
  downloadOutcome : Except String Unit
  pipelineEnv : OCRPipeline.Env
  now : ℚ

/-- What one `process_document` worker execution leaves behind: the updated
task storage, whether the temporary file still exists, and the value
returned (or the exception re-raised). -/
structure WorkerOut where
  storage : ApiRoutes.TaskStorage
  tempFilePresent : Bool
  outcome : Except String OCRPipeline.PipelineResult

/-- `process_document` (celery_tasks.py lines 34-140): set the task to
`processing`; download the file (a raised exception reaches the outer
`except`, which records `failed` and re-raises — no temp file was created);
otherwise write the temp file, run the pipeline inside `try/finally`, record
`completed` or `failed` from the result dictionary, and delete the temp file
on every path of the inner block. -/
def process_document (env : Env) (task_id : String)
    (st : ApiRoutes.TaskStorage) : WorkerOut :=
  let st1 := update_task_status st task_id ("processing") none none env.now
  match env.downloadOutcome with
  | .error e =>
    { storage := update_task_status st1 task_id ("failed") none (some e) env.now,
      tempFilePresent := false, outcome := .error e }
  | .ok _ =>
    -- temp file created here (tempfile.NamedTemporaryFile, delete=False)
    let result := OCRPipeline.process env.pipelineEnv
    let st2 :=
      if result.status = "completed" then
        update_task_status st1 task_id ("completed") (some result) none env.now
      else
        update_task_status st1 task_id ("failed") none
          (some (result.error.getD ("Unknown error"))) env.now
    -- finally: os.remove(tmp_path)
    { storage := st2, tempFilePresent := false, outcome := .ok result }

end CeleryTasks

/-! ## src/workers/table_extractor.py -/

namespace TableExtractor

/-- Modelled from the spec: the result object of
`LayoutLMPipeline.process_document` (module `ocr.pipeline` of the second
service, not present in the repository) — structured field data with
confidence scores and raw text. Only its shape matters here. -/
structure LayoutLMResult where
  extracted_data : List (String × String)
  confidence_scores : List (String × ℚ)
  raw_text : String
deriving DecidableEq, Repr

/-- The dictionary returned by `process_document_task` (success: lines
69-77; final failure: lines 89-94). The failure dictionary has no
`processing_time` and no `data`. -/
structure TaskDict where
  document_id : String
  task_id : String
  status : String
  error : Option String
  data : Option LayoutLMResult
deriving DecidableEq, Repr

/-- What a full run of the task (the initial execution plus celery
re-executions via `self.retry`) leaves behind: the returned dictionary, the
backoff countdowns requested, and whether the downloaded temp file at
`file_path` still exists. -/
structure RunOut where
  result : TaskDict
  countdowns : List Nat
  filePresent : Bool
deriving DecidableEq, Repr

/-- One run of `process_document_task` (table_extractor.py lines 34-94) from
retry count `r`: on success delete the temp file and return the success
dictionary; on an exception, if `self.request.retries < self.max_retries`
(3) re-raise via `self.retry(countdown=60 * (retries + 1))`, else return the
failed dictionary — without deleting the file. The fuel (4 suffices, since
`r` stops at 3) only drives the recursion. -/
def runFrom (outcome : Nat → Except String LayoutLMResult) (docId taskId : String) :
    Nat → Nat → List Nat → RunOut
  | 0, _, acc =>
    { result := { document_id := docId, task_id := taskId, status := "failed",
                  error := some ("unreachable"), data := none },
      countdowns := acc.reverse, filePresent := true }
  | fuel + 1, r, acc =>
    match outcome r with
    | .ok res =>
      { result := { document_id := docId, task_id := taskId, status := "success",
                    error := none, data := some res },
        countdowns := acc.reverse, filePresent := false }
    | .error e =>
      if r < 3 then runFrom outcome docId taskId fuel (r + 1) (60 * (r + 1) :: acc)
      else
        { result := { document_id := docId, task_id := taskId, status := "failed",
                      error := some e, data := none },
          countdowns := acc.reverse, filePresent := true }

/-- A complete `process_document_task` run starting at retry count 0. -/
def process_document_task (outcome : Nat → Except String LayoutLMResult)
    (docId taskId : String) : RunOut :=
  runFrom outcome docId taskId 4 0 []

/-- `cleanup_temp_files` (table_extractor.py lines 97-111): the periodic
sweep keeps exactly the files whose age is at most 3600 seconds. Files are
(path, mtime) pairs; `now` is the current time. -/
def cleanup_temp_files (files : List (String × Nat)) (now : Nat) : List (String × Nat) :=
  files.filter (fun f => !(now - f.2 > 3600))

end TableExtractor

/-! ## Spec-side predicates and concrete claim instances -/

/-- The spec's `DD.MM.YYYY` format: exactly two digits, a dot, two digits, a
dot and four digits. -/
def matchesDDMMYYYY (s : String) : Bool :=
  match s.data with
  | [d1, d2, p1, m1, m2, p2, y1, y2, y3, y4] =>
    d1.isDigit && d2.isDigit && p1 == '.' && m1.isDigit && m2.isDigit &&
      p2 == '.' && y1.isDigit && y2.isDigit && y3.isDigit && y4.isDigit
  | _ => false

/-- A pipeline invocation whose stages all succeed but whose recognition
returns no text spans. -/
def envEmptyOk : OCRPipeline.Env :=
  { preprocessOutcome := .ok (), detectOutcome := .ok [],
    recognizeOutcome := .ok [], modelAvailable := false,
    modelOutcome := .error ("model unavailable"), elapsed := 1 }

/-- A pipeline invocation whose external OCR call raises inside `detect` and
whose recognition returns no text spans. -/
def envC2 : OCRPipeline.Env :=
  { preprocessOutcome := .ok (), detectOutcome := .error ("OCR engine unavailable"),
    recognizeOutcome := .ok [], modelAvailable := true,
    modelOutcome := .error ("unused"), elapsed := 2 }

/-- One recognised text span. -/
def c3Text : TextPostprocessor.RecText :=
  { text := "Накладная 123", confidence := 9/10 }

/-- A pipeline invocation with non-empty recognition and a raising LayoutLM
model. -/
def envC3 : OCRPipeline.Env :=
  { preprocessOutcome := .ok (), detectOutcome := .ok [],
    recognizeOutcome := .ok [c3Text], modelAvailable := true,
    modelOutcome := .error ("RuntimeError: model inference failed"), elapsed := 3 }

/-- A plain-text field whose value holds two chained hyphenation breaks. -/
def c4Field : PyField :=
  { name := "note", value := some ("ab- cd- ef"), type_ := some ("text"),
    confidence := some (9/10) }

/-- A date field whose value is in the `DD-MM-YYYY` date-pattern family. -/
def c5Field : PyField :=
  { name := "date", value := some ("01-03-2024"), type_ := some ("date"),
    confidence := some (17/20) }

/-- A stored task still in the non-terminal state `processing`. -/
def processingTask : ApiRoutes.TaskStatus :=
  { task_id := "t", status := "processing", result := none,
    error_message := none, created_at := 0, completed_at := none }

/-- A second submission whose generated id collides with the stored
non-terminal task `t`. -/
def c6SecondSubmit : ApiRoutes.SubmitOut :=
  ApiRoutes.create_ocr_task ("t") 5
    { file_url := "minio://documents/a.jpg", document_type := none }
    [(("t"), processingTask)]

/-- A stored task already in the terminal state `completed`. -/
def taskCompleted : ApiRoutes.TaskStatus :=
  { task_id := "a", status := "completed", result := none,
    error_message := none, created_at := 0, completed_at := none }

/-- A stored task in the non-terminal state `processing`. -/
def taskProcessing : ApiRoutes.TaskStatus :=
  { task_id := "b", status := "processing", result := none,
    error_message := none, created_at := 0, completed_at := none }

/-- A matched waybill field with confidence 0.9. -/
def wfMatched : WaybillProcessor.WField :=
  { value := some ("123-45"), confidence := some (9/10), raw_text := some ("накладная 123-45") }

/-- An unmatched waybill field with confidence 0.0. -/
def wfUnmatched : WaybillProcessor.WField :=
  { value := none, confidence := some 0, raw_text := none }

-- Decidable equality for exception-or-value outcomes.
deriving instance DecidableEq for Except

/-! ## Theorems -/

/-- Helper: looking up the key just written by `setTask` returns the new
record. -/
theorem lookupTask_setTask_self (st : ApiRoutes.TaskStorage) (tid : String)
    (t : ApiRoutes.TaskStatus) :
    ApiRoutes.lookupTask (ApiRoutes.setTask st tid t) tid = some t := by
  induction st with
  | nil => simp [ApiRoutes.setTask, ApiRoutes.lookupTask]
  | cons kv rest ih =>
    by_cases h : kv.1 = tid <;>
      simp [ApiRoutes.setTask, ApiRoutes.lookupTask, h, ih]

/-- C10: for every combination of stage outcomes, `OCRPipeline.process`
returns a dictionary (it is a total function — the body is one `try` whose
`except` builds the failed dictionary) whose status is `completed` with no
error, or `failed` with an error message; both branches carry the elapsed
processing time. -/
theorem c10_pipeline_total_result (env : OCRPipeline.Env) :
    (((OCRPipeline.process env).status = "completed" ∧ (OCRPipeline.process env).error = none) ∨
      ((OCRPipeline.process env).status = "failed" ∧ (OCRPipeline.process env).error.isSome = true)) ∧
    (OCRPipeline.process env).processing_time = env.elapsed := by
  rcases env with ⟨pre, det, rec, avail, mo, t⟩
  cases pre with
  | error e => simp [OCRPipeline.process, OCRPipeline.failedResult]
  | ok u =>
    cases rec with
    | error e => simp [OCRPipeline.process, OCRPipeline.failedResult]
    | ok texts =>
      cases hx : LayoutLMExtractor.extract avail mo texts with
      | error e => simp [OCRPipeline.process, OCRPipeline.failedResult, hx]
      | ok fields => simp [OCRPipeline.process, hx]

/-- Helper: the table-extractor worker's downloaded file survives the run
exactly when the run ends with the failed dictionary (the deletion happens
only on the success path). -/
theorem runFrom_filePresent (outcome : Nat → Except String TableExtractor.LayoutLMResult)
    (docId taskId : String) :
    ∀ (fuel r : Nat) (acc : List Nat),
      (TableExtractor.runFrom outcome docId taskId fuel r acc).filePresent =
        ((TableExtractor.runFrom outcome docId taskId fuel r acc).result.status == "failed") := by
  intro fuel
  induction fuel with
  | zero => intro r acc; simp [TableExtractor.runFrom]
  | succ n ih =>
    intro r acc
    cases h : outcome r with
    | ok res => simp [TableExtractor.runFrom, h]
    | error e =>
      by_cases hr : r < 3
      · simp [TableExtractor.runFrom, h, hr, ih]
      · simp [TableExtractor.runFrom, h, hr]

/-- C7: when every attempt raises, `process_document_task` performs exactly
three retries with the linear backoff countdowns 60, 120, 180 seconds
(60 × retry attempt count) and then returns the failed dictionary carrying
the last attempt's error. -/
theorem c7_retry_policy (outcome : Nat → Except String TableExtractor.LayoutLMResult)
    (msgs : Nat → String) (docId taskId : String)
    (h : ∀ n, outcome n = .error (msgs n)) :
    (TableExtractor.process_document_task outcome docId taskId).countdowns = [60, 120, 180] ∧
    (TableExtractor.process_document_task outcome docId taskId).result.status = "failed" ∧
    (TableExtractor.process_document_task outcome docId taskId).result.error = some (msgs 3) := by
  simp [TableExtractor.process_document_task, TableExtractor.runFrom, h 0, h 1, h 2, h 3]

/-- C7 witness: a concrete persistently-failing collaborator exhausts the
three retries with countdowns 60, 120, 180 and ends failed with the last
error recorded. -/
theorem c7_retry_policy_witness :
    (TableExtractor.process_document_task (fun _ => .error ("RecognitionUnavailable")) ("doc1") ("task1")).countdowns = [60, 120, 180] ∧
    (TableExtractor.process_document_task (fun _ => .error ("RecognitionUnavailable")) ("doc1") ("task1")).result.status = "failed" ∧
    (TableExtractor.process_document_task (fun _ => .error ("RecognitionUnavailable")) ("doc1") ("task1")).result.error = some ("RecognitionUnavailable") :=
  c7_retry_policy (fun _ => .error ("RecognitionUnavailable"))
    (fun _ => ("RecognitionUnavailable")) ("doc1") ("task1") (fun _ => rfl)

/-- C9: when the task exists, cancelling it in a terminal state `completed`
or `failed` raises the 400 invalid-state error and leaves the storage
unchanged; in every other state the status becomes `cancelled`. -/
theorem c9_cancel_task_behaviour (st : ApiRoutes.TaskStorage) (tid : String)
    (task : ApiRoutes.TaskStatus)
    (hfind : ApiRoutes.lookupTask st tid = some task) :
    ((task.status = "completed" ∨ task.status = "failed") →
        ApiRoutes.cancel_task tid st =
          (.error { status_code := 400,
                    detail := "Cannot cancel task with status " ++ task.status }, st)) ∧
    (¬(task.status = "completed" ∨ task.status = "failed") →
        ApiRoutes.cancel_task tid st =
          (.ok ("Task cancelled"),
            ApiRoutes.setTask st tid { task with status := "cancelled" })) := by
  constructor
  · intro hterm
    simp [ApiRoutes.cancel_task, hfind, hterm]
  · intro hnon
    simp [ApiRoutes.cancel_task, hfind, hnon]

/-- C9 witness: cancelling a concrete `completed` task yields the 400 error
and the unchanged storage; cancelling a concrete `processing` task rewrites
its status to `cancelled`. -/
theorem c9_cancel_task_behaviour_witness :
    ApiRoutes.cancel_task ("a") [(("a"), taskCompleted)] =
      (.error { status_code := 400,
                detail := "Cannot cancel task with status " ++ taskCompleted.status },
        [(("a"), taskCompleted)]) ∧
    ApiRoutes.cancel_task ("b") [(("b"), taskProcessing)] =
      (.ok ("Task cancelled"),
        ApiRoutes.setTask [(("b"), taskProcessing)] ("b")
          { taskProcessing with status := "cancelled" }) := by
  constructor
  · exact (c9_cancel_task_behaviour [(("a"), taskCompleted)] ("a") taskCompleted (by decide)).1
      (Or.inl (by decide))
  · exact (c9_cancel_task_behaviour [(("b"), taskProcessing)] ("b") taskProcessing (by decide)).2
      (by decide)

/-- C6 counterexample: with a non-terminal task stored under id `t`, a
submission whose generated id is `t` does not raise any duplicate error —
it returns the normal pending response, enqueues another pipeline
invocation, and silently overwrites the stored record. -/
theorem c6_duplicate_submission_counterexample :
    c6SecondSubmit.response.status = "pending" ∧
    c6SecondSubmit.enqueued = [(("t"), ("minio://documents/a.jpg"), none)] ∧
    ApiRoutes.lookupTask c6SecondSubmit.storage ("t") ≠ some processingTask := by
  decide

/-- C6 amended: `create_ocr_task` is unconditional — for every generated id,
request and prior storage it returns the pending response, enqueues exactly
one pipeline invocation and stores a fresh pending record under the id
(overwriting any existing record); no duplicate check exists. -/
theorem c6_submission_unconditional (genId : String) (now : ℚ)
    (request : ApiRoutes.OCRTaskRequest) (st : ApiRoutes.TaskStorage) :
    (ApiRoutes.create_ocr_task genId now request st).response =
      { task_id := genId, status := "pending",
        message := "Task created and queued for processing" } ∧
    (ApiRoutes.create_ocr_task genId now request st).enqueued =
      [(genId, request.file_url, request.document_type)] ∧
    ApiRoutes.lookupTask (ApiRoutes.create_ocr_task genId now request st).storage genId =
      some { task_id := genId, status := "pending", result := none,
             error_message := none, created_at := now, completed_at := none } := by
  refine ⟨rfl, rfl, ?_⟩
  exact lookupTask_setTask_self st genId _

/-- C1 counterexample: a completed pipeline run with an empty field list —
the result dictionary carries no document-level confidence at all (in
particular not the mean 0.0 that the claim requires). -/
theorem c1_confidence_counterexample :
    (OCRPipeline.process envEmptyOk).status = "completed" ∧
    (OCRPipeline.process envEmptyOk).fields = some [] ∧
    (OCRPipeline.process envEmptyOk).confidence = none ∧
    (OCRPipeline.process envEmptyOk).confidence ≠ some 0 := by
  decide

/-- C1 amended: the waybill processor's `_calculate_confidence` is the
arithmetic mean of the per-field confidences (0.0 on an empty collection),
while the OCR pipeline's result dictionary carries no document-level
confidence on any path. -/
theorem c1_confidence_amended :
    (∀ l : List WaybillProcessor.WField, l ≠ [] →
        WaybillProcessor.calculate_confidence l =
          (l.map (fun f => f.confidence.getD 0)).sum / (l.length : ℚ)) ∧
    WaybillProcessor.calculate_confidence [] = 0 ∧
    (∀ env : OCRPipeline.Env, (OCRPipeline.process env).confidence = none) := by
  refine ⟨?_, by simp [WaybillProcessor.calculate_confidence], ?_⟩
  · intro l hl
    rcases l with _ | ⟨a, l⟩
    · exact absurd rfl hl
    · simp [WaybillProcessor.calculate_confidence]
  · intro env
    rcases env with ⟨pre, det, rec, avail, mo, t⟩
    cases pre with
    | error e => simp [OCRPipeline.process, OCRPipeline.failedResult]
    | ok u =>
      cases rec with
      | error e => simp [OCRPipeline.process, OCRPipeline.failedResult]
      | ok texts =>
        cases hx : LayoutLMExtractor.extract avail mo texts with
        | error e => simp [OCRPipeline.process, OCRPipeline.failedResult, hx]
        | ok fields => simp [OCRPipeline.process, hx]

/-- C1 witness: the mean of a matched (0.9) and an unmatched (0.0) waybill
field is 0.45, and a concrete pipeline run carries no confidence. -/
theorem c1_confidence_amended_witness :
    WaybillProcessor.calculate_confidence [wfMatched, wfUnmatched] = 9/20 ∧
    (OCRPipeline.process envEmptyOk).confidence = none := by
  constructor
  · have h := c1_confidence_amended.1 [wfMatched, wfUnmatched] (by decide)
    rw [h]; norm_num [wfMatched, wfUnmatched]
  · exact c1_confidence_amended.2.2 envEmptyOk

/-- C2 counterexample: with the external OCR call raising, the adapter
returns the empty list and the pipeline run completes with zero fields —
but the result carries no document-level confidence, not the claimed 0.0. -/
theorem c2_empty_recognition_counterexample :
    TextDetector.detect envC2.detectOutcome = [] ∧
    (OCRPipeline.process envC2).status = "completed" ∧
    (OCRPipeline.process envC2).fields = some [] ∧
    (OCRPipeline.process envC2).confidence = none ∧
    (OCRPipeline.process envC2).confidence ≠ some 0 := by
  decide

/-- C2 amended: the adapter `TextDetector.detect` returns the empty list
whenever the collaborator raises or returns an empty result, and a pipeline
run whose recognition yields the empty list produces the completed
dictionary with zero fields, empty raw text and no confidence entry — not a
failure. -/
theorem c2_empty_recognition_amended :
    (∀ e, TextDetector.detect (.error e) = []) ∧
    TextDetector.detect (.ok []) = [] ∧
    (∀ pages, TextDetector.detect (.ok ([] :: pages)) = []) ∧
    (∀ env : OCRPipeline.Env, env.preprocessOutcome = .ok () →
        env.recognizeOutcome = .ok [] →
        OCRPipeline.process env =
          { status := "completed", fields := some [], raw_text := some "",
            confidence := none, error := none, processing_time := env.elapsed }) := by
  refine ⟨fun e => rfl, rfl, fun pages => by simp [TextDetector.detect], ?_⟩
  intro env h1 h2
  rcases env with ⟨pre, det, rec, avail, mo, t⟩
  simp only at h1 h2
  subst h1; subst h2
  simp [OCRPipeline.process, LayoutLMExtractor.extract, TextPostprocessor.process,
    String.intercalate]

/-- C2 witness: at a concrete run whose OCR collaborator raises and whose
recognition is empty, the adapter yields `[]` and processing completes with
zero fields and no confidence entry. -/
theorem c2_empty_recognition_amended_witness :
    TextDetector.detect (.error ("OCR engine unavailable")) = [] ∧
    OCRPipeline.process envC2 =
      { status := "completed", fields := some [], raw_text := some "",
        confidence := none, error := none, processing_time := envC2.elapsed } :=
  ⟨c2_empty_recognition_amended.1 ("OCR engine unavailable"),
    c2_empty_recognition_amended.2.2.2 envC2 rfl rfl⟩

/-- C3: with non-empty recognition and a raising model, the extractor's
fallback `_extract_by_rules` does not return the rule-based fields — its
`from shared.utils import extract_date_from_text, ...` raises `ImportError`
(`shared.utils` defines `parse_date_from_text`, not
`extract_date_from_text`), the error propagates out of `extract`, and the
pipeline run ends `failed` instead of recovering. -/
theorem c3_model_fallback_import_error :
    SharedUtils.exports.contains ("extract_date_from_text") = false ∧
    LayoutLMExtractor.extract true (.error ("RuntimeError: model inference failed")) [c3Text] =
      .error ("ImportError: cannot import name extract_date_from_text from shared.utils") ∧
    (OCRPipeline.process envC3).status = "failed" ∧
    (OCRPipeline.process envC3).error =
      some ("ImportError: cannot import name extract_date_from_text from shared.utils") := by
  decide

/-- C4: per-field normalization is not idempotent — on the plain-text value
`ab- cd- ef` the first application returns `abcd- ef` (the hyphenation
regex consumes `cd` and cannot re-match the second break) and the second
application returns `abcdef`, changing the already-normalized value. -/
theorem c4_normalization_not_idempotent :
    TextPostprocessor.process_field TextPostprocessor.defaultConfig
        (TextPostprocessor.process_field TextPostprocessor.defaultConfig c4Field) ≠
      TextPostprocessor.process_field TextPostprocessor.defaultConfig c4Field ∧
    (TextPostprocessor.process_field TextPostprocessor.defaultConfig c4Field).value =
      some ("abcd- ef") ∧
    (TextPostprocessor.process_field TextPostprocessor.defaultConfig
        (TextPostprocessor.process_field TextPostprocessor.defaultConfig c4Field)).value =
      some ("abcdef") := by
  decide

/-- C8 counterexample: a table-extractor run that exhausts its retries ends
in the terminal state `failed` with the downloaded temp file still present
(`os.remove` only runs on the success path). -/
theorem c8_cleanup_counterexample :
    (TableExtractor.process_document_task (fun _ => .error ("disk read failed")) ("doc7") ("task7")).result.status = "failed" ∧
    (TableExtractor.process_document_task (fun _ => .error ("disk read failed")) ("doc7") ("task7")).filePresent = true := by
  decide

/-- C8 amended: the OCR-service celery worker `process_document` never
leaves its temp file behind — on every download outcome and every pipeline
outcome the file is gone when the task reaches its terminal state; the
table-extractor worker, by contrast, deletes its file exactly on the
success path, so a `failed` run leaves the file for the periodic sweep. -/
theorem c8_cleanup_amended :
    (∀ (env : CeleryTasks.Env) (tid : String) (st : ApiRoutes.TaskStorage),
        (CeleryTasks.process_document env tid st).tempFilePresent = false) ∧
    (∀ (outcome : Nat → Except String TableExtractor.LayoutLMResult) (docId taskId : String),
        (TableExtractor.process_document_task outcome docId taskId).filePresent =
          ((TableExtractor.process_document_task outcome docId taskId).result.status == "failed")) := by
  constructor
  · intro env tid st
    rcases env with ⟨dl, pe, now⟩
    cases dl with
    | error e => simp [CeleryTasks.process_document]
    | ok u => simp [CeleryTasks.process_document]
  · intro outcome docId taskId
    exact runFrom_filePresent outcome docId taskId 4 0 []

/-- Helper: members of `dropWhile p l` are members of `l`. -/
theorem mem_of_mem_dropWhile (p : Char → Bool) :
    ∀ (l : List Char) (x : Char), x ∈ List.dropWhile p l → x ∈ l := by
  intro l
  induction l with
  | nil => intro x hx; simp [List.dropWhile] at hx
  | cons a t ih =>
    intro x hx
    by_cases hpa : p a
    · simp only [List.dropWhile_cons, hpa, if_true] at hx
      exact List.mem_cons_of_mem _ (ih x hx)
    · simp only [List.dropWhile_cons, hpa, if_false] at hx
      simpa using hx

/-- Helper: a digit character is not a whitespace character. -/
theorem isSpaceChar_eq_false_of_isDigit (c : Char) (h : c.isDigit = true) :
    isSpaceChar c = false := by
  cases hc : isSpaceChar c with
  | false => rfl
  | true =>
    exfalso
    unfold isSpaceChar at hc
    simp only [Bool.or_eq_true, beq_iff_eq] at hc
    rcases hc with ((((rfl | rfl) | rfl) | rfl) | rfl) | rfl <;>
      exact absurd h (by decide)

/-- Helper: a digit character is not in the `[.,;:!?]` class. -/
theorem isPunctChar_eq_false_of_isDigit (c : Char) (h : c.isDigit = true) :
    isPunctChar c = false := by
  cases hc : isPunctChar c with
  | false => rfl
  | true =>
    exfalso
    unfold isPunctChar at hc
    simp only [Bool.or_eq_true, beq_iff_eq] at hc
    rcases hc with ((((rfl | rfl) | rfl) | rfl) | rfl) | rfl <;>
      exact absurd h (by decide)

/-- Helper: a digit character is not equal (by `==`) to a non-digit one. -/
theorem beq_eq_false_of_isDigit (c d : Char) (h : c.isDigit = true)
    (hd : d.isDigit = false) : (c == d) = false := by
  cases hcd : c == d with
  | false => rfl
  | true =>
    exfalso
    rw [beq_iff_eq] at hcd
    subst hcd
    rw [h] at hd
    exact Bool.noConfusion hd

/-- Helper: a non-whitespace character is not the plain space. -/
theorem beq_space_eq_false (c : Char) (h : isSpaceChar c = false) :
    (c == ' ') = false := by
  cases hcs : c == ' ' with
  | false => rfl
  | true =>
    exfalso
    rw [beq_iff_eq] at hcs
    subst hcs
    exact absurd h (by decide)

/-- Helper: the hyphenation scanner is the identity on whitespace-free
input (its pattern requires `\s+` after the hyphen). -/
theorem fixHyphAux_eq_self (fuel : Nat) :
    ∀ l : List Char, (∀ c ∈ l, isSpaceChar c = false) →
      TextPostprocessor.fixHyphAux fuel l = l := by
  induction fuel with
  | zero => intro l _; rfl
  | succ n ih =>
    intro l h
    cases l with
    | nil => rfl
    | cons c rest =>
      have hrest : ∀ x ∈ rest, isSpaceChar x = false :=
        fun x hx => h x (List.mem_cons_of_mem _ hx)
      have hrec : TextPostprocessor.fixHyphAux n rest = rest := ih rest hrest
      by_cases hw : isWordChar c
      · cases hd : List.dropWhile isWordChar (c :: rest) with
        | nil => simp [TextPostprocessor.fixHyphAux, hw, hd, hrec]
        | cons d t2 =>
          have hcond : ¬(d = '-' ∧ (List.takeWhile isSpaceChar t2).isEmpty = false ∧
              (List.takeWhile isWordChar (List.dropWhile isSpaceChar t2)).isEmpty = false) := by
            rintro ⟨hdd, hts, _⟩
            cases t2 with
            | nil => simp [List.takeWhile] at hts
            | cons x t3 =>
              have hxl : x ∈ List.dropWhile isWordChar (c :: rest) := by
                rw [hd]; exact List.mem_cons_of_mem _ (List.mem_cons_self _ _)
              have hxs : isSpaceChar x = false :=
                h x (mem_of_mem_dropWhile _ _ _ hxl)
              simp [List.takeWhile_cons, hxs] at hts
          have hstep : TextPostprocessor.fixHyphAux (n + 1) (c :: rest) =
              c :: TextPostprocessor.fixHyphAux n rest := by
            simp only [TextPostprocessor.fixHyphAux, hw, if_true, hd]
            rw [if_neg hcond]
          rw [hstep, hrec]
      · simp [TextPostprocessor.fixHyphAux, hw, hrec]

/-- Helper: the space-before-punctuation scanner is the identity on
whitespace-free input. -/
theorem spacingRule1Aux_eq_self (fuel : Nat) :
    ∀ l : List Char, (∀ c ∈ l, isSpaceChar c = false) →
      TextPostprocessor.spacingRule1Aux fuel l = l := by
  induction fuel with
  | zero => intro l _; rfl
  | succ n ih =>
    intro l h
    cases l with
    | nil => rfl
    | cons c rest =>
      have hc : isSpaceChar c = false := h c (List.mem_cons_self _ _)
      have hrest : ∀ x ∈ rest, isSpaceChar x = false :=
        fun x hx => h x (List.mem_cons_of_mem _ hx)
      simp [TextPostprocessor.spacingRule1Aux, hc, ih rest hrest]

/-- Helper: the punctuation-spacing scanner is the identity on
punctuation-free input. -/
theorem spacingRule2Aux_eq_self (fuel : Nat) :
    ∀ l : List Char, (∀ c ∈ l, isPunctChar c = false) →
      TextPostprocessor.spacingRule2Aux fuel l = l := by
  induction fuel with
  | zero => intro l _; rfl
  | succ n ih =>
    intro l h
    match l with
    | [] => rfl
    | [c] => rfl
    | c :: d :: rest =>
      have hc : isPunctChar c = false := h c (List.mem_cons_self _ _)
      have hrest : ∀ x ∈ d :: rest, isPunctChar x = false :=
        fun x hx => h x (List.mem_cons_of_mem _ hx)
      simp [TextPostprocessor.spacingRule2Aux, hc, ih (d :: rest) hrest]

/-- Helper: the double-space scanner is the identity on whitespace-free
input. -/
theorem spacingRule3Aux_eq_self (fuel : Nat) :
    ∀ l : List Char, (∀ c ∈ l, isSpaceChar c = false) →
      TextPostprocessor.spacingRule3Aux fuel l = l := by
  induction fuel with
  | zero => intro l _; rfl
  | succ n ih =>
    intro l h
    match l with
    | [] => rfl
    | [c] => rfl
    | c :: d :: rest =>
      have hc : (c == ' ') = false := beq_space_eq_false c (h c (List.mem_cons_self _ _))
      have hrest : ∀ x ∈ d :: rest, isSpaceChar x = false :=
        fun x hx => h x (List.mem_cons_of_mem _ hx)
      simp [TextPostprocessor.spacingRule3Aux, hc, ih (d :: rest) hrest]

/-- Helper: `dropWhile` is the identity when no element satisfies the
predicate. -/
theorem dropWhile_eq_self_of_none (p : Char → Bool) (l : List Char)
    (h : ∀ c ∈ l, p c = false) : List.dropWhile p l = l := by
  cases l with
  | nil => rfl
  | cons c rest => simp [List.dropWhile_cons, h c (List.mem_cons_self _ _)]

/-- Helper: `stripChars` is the identity on whitespace-free input. -/
theorem stripChars_eq_self (l : List Char) (h : ∀ c ∈ l, isSpaceChar c = false) :
    stripChars l = l := by
  have h2 : ∀ c ∈ l.reverse, isSpaceChar c = false :=
    fun c hc => h c (List.mem_reverse.mp hc)
  unfold stripChars
  rw [dropWhile_eq_self_of_none _ l h, dropWhile_eq_self_of_none _ l.reverse h2,
    List.reverse_reverse]

/-- Helper: the whitespace-collapse scanner is the identity on
whitespace-free input. -/
theorem wsAux_eq_self (fuel : Nat) :
    ∀ l : List Char, (∀ c ∈ l, isSpaceChar c = false) →
      TextPostprocessor.wsAux fuel l = l := by
  induction fuel with
  | zero => intro l _; rfl
  | succ n ih =>
    intro l h
    cases l with
    | nil => rfl
    | cons c rest =>
      have hc : isSpaceChar c = false := h c (List.mem_cons_self _ _)
      have hrest : ∀ x ∈ rest, isSpaceChar x = false :=
        fun x hx => h x (List.mem_cons_of_mem _ hx)
      simp [TextPostprocessor.wsAux, hc, ih rest hrest]

/-- Helper: `_fix_hyphenation` fixes nothing in a whitespace-free string. -/
theorem fix_hyphenation_eq_self (s : String) (h : ∀ c ∈ s.data, isSpaceChar c = false) :
    TextPostprocessor.fix_hyphenation s = s := by
  unfold TextPostprocessor.fix_hyphenation
  rw [fixHyphAux_eq_self _ _ h]

/-- Helper: `_fix_spacing` fixes nothing in a whitespace-free,
punctuation-free string. -/
theorem fix_spacing_eq_self (s : String)
    (hs : ∀ c ∈ s.data, isSpaceChar c = false)
    (hp : ∀ c ∈ s.data, isPunctChar c = false) :
    TextPostprocessor.fix_spacing s = s := by
  have h1 := spacingRule1Aux_eq_self s.data.length s.data hs
  simp only [TextPostprocessor.fix_spacing, h1]
  rw [spacingRule2Aux_eq_self _ _ hp, spacingRule3Aux_eq_self _ _ hs,
    stripChars_eq_self _ hs]

/-- Helper: `_normalize_whitespace` fixes nothing in a whitespace-free
string. -/
theorem normalize_whitespace_eq_self (s : String)
    (h : ∀ c ∈ s.data, isSpaceChar c = false) :
    TextPostprocessor.normalize_whitespace s = s := by
  unfold TextPostprocessor.normalize_whitespace
  rw [wsAux_eq_self _ _ h, stripChars_eq_self _ h]

/-- Helper: the `(\d{4})-(\d{2})-(\d{2})` matcher never fires on a
hyphen-free list. -/
theorem tryYMD_eq_none (l : List Char) (h : ∀ c ∈ l, (c == '-') = false) :
    TextPostprocessor.tryYMD l = none := by
  rcases l with _ | ⟨a1, _ | ⟨a2, _ | ⟨a3, _ | ⟨a4, _ | ⟨s1, _ | ⟨b1, _ | ⟨b2, _ | ⟨s2, _ | ⟨c1, _ | ⟨c2, tail⟩⟩⟩⟩⟩⟩⟩⟩⟩⟩ <;>
    try rfl
  have hs1 : (s1 == '-') = false := h s1 (by simp)
  simp [TextPostprocessor.tryYMD, hs1]

/-- Helper: the `(\d{2})/(\d{2})/(\d{4})` matcher never fires on a
slash-free list. -/
theorem tryDMY_eq_none (l : List Char) (h : ∀ c ∈ l, (c == '/') = false) :
    TextPostprocessor.tryDMY l = none := by
  rcases l with _ | ⟨a1, _ | ⟨a2, _ | ⟨s1, _ | ⟨b1, _ | ⟨b2, _ | ⟨s2, _ | ⟨c1, _ | ⟨c2, _ | ⟨c3, _ | ⟨c4, tail⟩⟩⟩⟩⟩⟩⟩⟩⟩⟩ <;>
    try rfl
  have hs1 : (s1 == '/') = false := h s1 (by simp)
  simp [TextPostprocessor.tryDMY, hs1]

/-- Helper: the first date substitution is the identity on a hyphen-free
list. -/
theorem sub1Aux_eq_self (fuel : Nat) :
    ∀ l : List Char, (∀ c ∈ l, (c == '-') = false) →
      TextPostprocessor.sub1Aux fuel l = l := by
  induction fuel with
  | zero => intro l _; rfl
  | succ n ih =>
    intro l h
    have ht := tryYMD_eq_none l h
    cases l with
    | nil => simp [TextPostprocessor.sub1Aux, ht]
    | cons c rest =>
      have hrest : ∀ x ∈ rest, (x == '-') = false :=
        fun x hx => h x (List.mem_cons_of_mem _ hx)
      simp [TextPostprocessor.sub1Aux, ht, ih rest hrest]

/-- Helper: the second date substitution is the identity on a slash-free
list. -/
theorem sub2Aux_eq_self (fuel : Nat) :
    ∀ l : List Char, (∀ c ∈ l, (c == '/') = false) →
      TextPostprocessor.sub2Aux fuel l = l := by
  induction fuel with
  | zero => intro l _; rfl
  | succ n ih =>
    intro l h
    have ht := tryDMY_eq_none l h
    cases l with
    | nil => simp [TextPostprocessor.sub2Aux, ht]
    | cons c rest =>
      have hrest : ∀ x ∈ rest, (x == '/') = false :=
        fun x hx => h x (List.mem_cons_of_mem _ hx)
      simp [TextPostprocessor.sub2Aux, ht, ih rest hrest]

/-- C5 counterexample: `01-03-2024` is found by the source's own date
patterns (`\d{2}-\d{2}-\d{4}` in `parse_date_from_text`), yet per-field
normalization of the date field returns it unchanged, and it does not match
`DD.MM.YYYY`. -/
theorem c5_date_invariant_counterexample :
    SharedUtils.datePatternFound ("01-03-2024") = true ∧
    (TextPostprocessor.process_field TextPostprocessor.defaultConfig c5Field).value =
      some ("01-03-2024") ∧
    matchesDDMMYYYY ("01-03-2024") = false := by
  decide

/-- C5 amended: a date field's normalized value matches `DD.MM.YYYY`
whenever the incoming value is a full date in one of the two forms the
formatter handles — `YYYY-MM-DD` or `DD/MM/YYYY` — for arbitrary digits. -/
theorem c5_date_format_amended (d1 d2 m1 m2 y1 y2 y3 y4 : Char)
    (hd1 : d1.isDigit = true) (hd2 : d2.isDigit = true)
    (hm1 : m1.isDigit = true) (hm2 : m2.isDigit = true)
    (hy1 : y1.isDigit = true) (hy2 : y2.isDigit = true)
    (hy3 : y3.isDigit = true) (hy4 : y4.isDigit = true) :
    (TextPostprocessor.process_field TextPostprocessor.defaultConfig
        { name := "date",
          value := some (String.mk [y1, y2, y3, y4, '-', m1, m2, '-', d1, d2]),
          type_ := some ("date"), confidence := none }).value =
      some (String.mk [d1, d2, '.', m1, m2, '.', y1, y2, y3, y4]) ∧
    (TextPostprocessor.process_field TextPostprocessor.defaultConfig
        { name := "date",
          value := some (String.mk [d1, d2, '/', m1, m2, '/', y1, y2, y3, y4]),
          type_ := some ("date"), confidence := none }).value =
      some (String.mk [d1, d2, '.', m1, m2, '.', y1, y2, y3, y4]) ∧
    matchesDDMMYYYY (String.mk [d1, d2, '.', m1, m2, '.', y1, y2, y3, y4]) = true := by
  have hsD : ∀ c ∈ ([y1, y2, y3, y4, '-', m1, m2, '-', d1, d2] : List Char),
      isSpaceChar c = false := by
    intro c hc
    simp only [List.mem_cons, List.not_mem_nil, or_false] at hc
    rcases hc with rfl | rfl | rfl | rfl | rfl | rfl | rfl | rfl | rfl | rfl <;>
      first
        | exact isSpaceChar_eq_false_of_isDigit _ (by assumption)
        | decide
  have hpD : ∀ c ∈ ([y1, y2, y3, y4, '-', m1, m2, '-', d1, d2] : List Char),
      isPunctChar c = false := by
    intro c hc
    simp only [List.mem_cons, List.not_mem_nil, or_false] at hc
    rcases hc with rfl | rfl | rfl | rfl | rfl | rfl | rfl | rfl | rfl | rfl <;>
      first
        | exact isPunctChar_eq_false_of_isDigit _ (by assumption)
        | decide
  have hsS : ∀ c ∈ ([d1, d2, '/', m1, m2, '/', y1, y2, y3, y4] : List Char),
      isSpaceChar c = false := by
    intro c hc
    simp only [List.mem_cons, List.not_mem_nil, or_false] at hc
    rcases hc with rfl | rfl | rfl | rfl | rfl | rfl | rfl | rfl | rfl | rfl <;>
      first
        | exact isSpaceChar_eq_false_of_isDigit _ (by assumption)
        | decide
  have hpS : ∀ c ∈ ([d1, d2, '/', m1, m2, '/', y1, y2, y3, y4] : List Char),
      isPunctChar c = false := by
    intro c hc
    simp only [List.mem_cons, List.not_mem_nil, or_false] at hc
    rcases hc with rfl | rfl | rfl | rfl | rfl | rfl | rfl | rfl | rfl | rfl <;>
      first
        | exact isPunctChar_eq_false_of_isDigit _ (by assumption)
        | decide
  have hslashR : ∀ c ∈ ([d1, d2, '.', m1, m2, '.', y1, y2, y3, y4] : List Char),
      (c == '/') = false := by
    intro c hc
    simp only [List.mem_cons, List.not_mem_nil, or_false] at hc
    rcases hc with rfl | rfl | rfl | rfl | rfl | rfl | rfl | rfl | rfl | rfl <;>
      first
        | exact beq_eq_false_of_isDigit _ _ (by assumption) (by decide)
        | decide
  have hdashS : ∀ c ∈ ([d1, d2, '/', m1, m2, '/', y1, y2, y3, y4] : List Char),
      (c == '-') = false := by
    intro c hc
    simp only [List.mem_cons, List.not_mem_nil, or_false] at hc
    rcases hc with rfl | rfl | rfl | rfl | rfl | rfl | rfl | rfl | rfl | rfl <;>
      first
        | exact beq_eq_false_of_isDigit _ _ (by assumption) (by decide)
        | decide
  have hfdD : TextPostprocessor.format_date
      (String.mk [y1, y2, y3, y4, '-', m1, m2, '-', d1, d2]) =
      String.mk [d1, d2, '.', m1, m2, '.', y1, y2, y3, y4] := by
    have hs1 : TextPostprocessor.sub1Aux 10 [y1, y2, y3, y4, '-', m1, m2, '-', d1, d2] =
        [d1, d2, '.', m1, m2, '.', y1, y2, y3, y4] := by
      simp [TextPostprocessor.sub1Aux, TextPostprocessor.tryYMD,
        hy1, hy2, hy3, hy4, hm1, hm2, hd1, hd2]
    have hs2 : TextPostprocessor.sub2Aux
        ([d1, d2, '.', m1, m2, '.', y1, y2, y3, y4] : List Char).length
        [d1, d2, '.', m1, m2, '.', y1, y2, y3, y4] =
        [d1, d2, '.', m1, m2, '.', y1, y2, y3, y4] :=
      sub2Aux_eq_self _ _ hslashR
    show String.mk (TextPostprocessor.sub2Aux
        (TextPostprocessor.sub1Aux 10 [y1, y2, y3, y4, '-', m1, m2, '-', d1, d2]).length
        (TextPostprocessor.sub1Aux 10 [y1, y2, y3, y4, '-', m1, m2, '-', d1, d2])) = _
    rw [hs1, hs2]
  have hfdS : TextPostprocessor.format_date
      (String.mk [d1, d2, '/', m1, m2, '/', y1, y2, y3, y4]) =
      String.mk [d1, d2, '.', m1, m2, '.', y1, y2, y3, y4] := by
    have hs1 : TextPostprocessor.sub1Aux 10 [d1, d2, '/', m1, m2, '/', y1, y2, y3, y4] =
        [d1, d2, '/', m1, m2, '/', y1, y2, y3, y4] :=
      sub1Aux_eq_self 10 _ hdashS
    have hs2 : TextPostprocessor.sub2Aux 10 [d1, d2, '/', m1, m2, '/', y1, y2, y3, y4] =
        [d1, d2, '.', m1, m2, '.', y1, y2, y3, y4] := by
      simp [TextPostprocessor.sub2Aux, TextPostprocessor.tryDMY,
        hy1, hy2, hy3, hy4, hm1, hm2, hd1, hd2]
    show String.mk (TextPostprocessor.sub2Aux
        (TextPostprocessor.sub1Aux 10 [d1, d2, '/', m1, m2, '/', y1, y2, y3, y4]).length
        (TextPostprocessor.sub1Aux 10 [d1, d2, '/', m1, m2, '/', y1, y2, y3, y4])) = _
    rw [hs1]
    exact congrArg String.mk hs2
  refine ⟨?_, ?_, ?_⟩
  · have e1 := fix_hyphenation_eq_self (String.mk [y1, y2, y3, y4, '-', m1, m2, '-', d1, d2]) hsD
    have e2 := fix_spacing_eq_self (String.mk [y1, y2, y3, y4, '-', m1, m2, '-', d1, d2]) hsD hpD
    have e3 := normalize_whitespace_eq_self (String.mk [y1, y2, y3, y4, '-', m1, m2, '-', d1, d2]) hsD
    simp [TextPostprocessor.process_field, TextPostprocessor.defaultConfig,
      TextPostprocessor.format_by_type, e1, e2, e3, hfdD]
  · have e1 := fix_hyphenation_eq_self (String.mk [d1, d2, '/', m1, m2, '/', y1, y2, y3, y4]) hsS
    have e2 := fix_spacing_eq_self (String.mk [d1, d2, '/', m1, m2, '/', y1, y2, y3, y4]) hsS hpS
    have e3 := normalize_whitespace_eq_self (String.mk [d1, d2, '/', m1, m2, '/', y1, y2, y3, y4]) hsS
    simp [TextPostprocessor.process_field, TextPostprocessor.defaultConfig,
      TextPostprocessor.format_by_type, e1, e2, e3, hfdS]
  · simp [matchesDDMMYYYY, hd1, hd2, hm1, hm2, hy1, hy2, hy3, hy4]

/-- C5 witness: the concrete value `2024-03-01` in a date field normalizes
to `01.03.2024`, which matches `DD.MM.YYYY`. -/
theorem c5_date_format_amended_witness :
    (TextPostprocessor.process_field TextPostprocessor.defaultConfig
        { name := "date", value := some ("2024-03-01"),
          type_ := some ("date"), confidence := none }).value =
      some ("01.03.2024") ∧
    matchesDDMMYYYY ("01.03.2024") = true := by
  have h := c5_date_format_amended '0' '1' '0' '3' '2' '0' '2' '4'
    rfl rfl rfl rfl rfl rfl rfl rfl
  exact ⟨h.1, h.2.2⟩
